import Mathlib

/-!
Shallow embedding of the multi-tenant core of the `resource-api` repository:
the schema namer (`app/db/database.py:get_schema_name`), the session router
and existence guard (`get_tenant_session`, `schema_exists`, `app/api/deps.py`),
the tenant provisioner (`create_company_schema`), the company lifecycle
manager (`app/crud/crud_company.py`), the identity dual-write coordinator
(`app/api/v1/endpoints/auth.py`, `app/api/v1/endpoints/users.py`), and the
token codec (`app/core/security.py`).

Database effects are modelled by explicit state passing over `DBState`;
fallible external steps (lookup insert, seeding, DDL) take explicit
fault flags so that runs in which a given step fails are expressible.
-/

namespace ResourceApi

/-- Decidable equality for `Except`, so that concrete runs of the embedded
operations can be checked by `decide`. -/
instance {ε α : Type} [DecidableEq ε] [DecidableEq α] :
    DecidableEq (Except ε α) := fun x y =>
  match x, y with
  | .ok a, .ok b =>
    if h : a = b then .isTrue (congrArg Except.ok h)
    else .isFalse (fun hc => h (Except.ok.inj hc))
  | .error a, .error b =>
    if h : a = b then .isTrue (congrArg Except.error h)
    else .isFalse (fun hc => h (Except.error.inj hc))
  | .ok _, .error _ => .isFalse (fun hc => Except.noConfusion hc)
  | .error _, .ok _ => .isFalse (fun hc => Except.noConfusion hc)

/-! ## Python value domain for `get_schema_name`

`get_schema_name` (app/db/database.py:38) performs a runtime
`isinstance(company_id, int)` check, so its argument domain is modelled as a
small universe of Python values.  In Python, `bool` is a subclass of `int`,
hence `isinstance(True, int)` is `True`; booleans carry their usual numeric
values (`True` = 1, `False` = 0) and render as `True` / `False` in f-strings. -/

inductive PyVal where
  | int (n : Int)
  | bool (b : Bool)
  | str (s : String)
  | none
deriving DecidableEq

/-- ASCII character of a decimal digit, as Python's `str` renders it. -/
def digitChar (d : Nat) : Char := Char.ofNat (48 + d)

/-- Little-endian base-10 digits, fuel-based so that it is structurally
recursive (and hence evaluates inside `decide`). -/
def decDigitsAux : Nat → Nat → List Nat
  | _, 0 => []
  | 0, _ + 1 => []
  | fuel + 1, n + 1 => ((n + 1) % 10) :: decDigitsAux fuel ((n + 1) / 10)

/-- Little-endian base-10 digits of `n` (empty for zero). -/
def decDigits (n : Nat) : List Nat := decDigitsAux n n

theorem decDigitsAux_eq_digits :
    ∀ fuel n : Nat, n ≤ fuel → decDigitsAux fuel n = Nat.digits 10 n
  | _, 0, _ => by simp [decDigitsAux]
  | 0, n + 1, h => absurd h (by omega)
  | fuel + 1, n + 1, h => by
    rw [decDigitsAux, decDigitsAux_eq_digits fuel ((n + 1) / 10) (by omega),
      Nat.digits_def' (by norm_num : 1 < 10) (Nat.succ_pos n)]

theorem decDigits_eq_digits (n : Nat) : decDigits n = Nat.digits 10 n :=
  decDigitsAux_eq_digits n n (Nat.le_refl n)

/-- Decimal rendering of a natural number, as Python's `str(n)`:
most-significant digit first, no leading zeros, and `"0"` for zero. -/
def natDecimal (n : Nat) : String :=
  if n = 0 then "0" else String.mk ((decDigits n).reverse.map digitChar)

/-- Decimal rendering of a Python integer, as Python's `str(i)`. -/
def intDecimal (i : Int) : String :=
  if i < 0 then "-" ++ natDecimal i.natAbs else natDecimal i.natAbs

/-- Python `f"{v}"` conversion for the modelled value universe. -/
def pyFStr : PyVal → String
  | .int n => intDecimal n
  | .bool b => if b then "True" else "False"
  | .str s => s
  | .none => "None"

/-- Python `isinstance(v, int)`: true for `int` and for `bool`
(`bool` is a subclass of `int`). -/
def pyIsInt : PyVal → Bool
  | .int _ => true
  | .bool _ => true
  | _ => false

/-- Numeric value of an int-like Python value (`True` = 1, `False` = 0).
Only ever consulted after `pyIsInt` succeeded. -/
def pyIntValue : PyVal → Int
  | .int n => n
  | .bool b => if b then 1 else 0
  | _ => 0

/-- `get_schema_name` (app/db/database.py:38-53):
`if not isinstance(company_id, int) or company_id <= 0: raise ValueError(...)`,
else `return f"company_{company_id}"`.  The raised `ValueError` is modelled as
`Except.error` carrying the formatted message. -/
def get_schema_name (company_id : PyVal) : Except String String :=
  if ¬ pyIsInt company_id then
    .error ("Invalid company_id: " ++ pyFStr company_id)
  else if pyIntValue company_id ≤ 0 then
    .error ("Invalid company_id: " ++ pyFStr company_id)
  else
    .ok ("company_" ++ pyFStr company_id)

/-! ### Injectivity of the decimal rendering -/

theorem digitChar_inj {d₁ d₂ : Nat} (h₁ : d₁ < 10) (h₂ : d₂ < 10)
    (h : digitChar d₁ = digitChar d₂) : d₁ = d₂ := by
  have v₁ : (48 + d₁).isValidChar := Or.inl (by omega)
  have v₂ : (48 + d₂).isValidChar := Or.inl (by omega)
  have t₁ : (digitChar d₁).toNat = 48 + d₁ := by
    simp [digitChar, Char.ofNat, Char.ofNatAux, Char.toNat, v₁, UInt32.toNat,
      BitVec.toNat_ofNat]
  have t₂ : (digitChar d₂).toNat = 48 + d₂ := by
    simp [digitChar, Char.ofNat, Char.ofNatAux, Char.toNat, v₂, UInt32.toNat,
      BitVec.toNat_ofNat]
  have := t₁ ▸ t₂ ▸ congrArg Char.toNat h
  omega

theorem map_digitChar_inj : ∀ l₁ l₂ : List Nat, (∀ d ∈ l₁, d < 10) →
    (∀ d ∈ l₂, d < 10) → l₁.map digitChar = l₂.map digitChar → l₁ = l₂
  | [], [], _, _, _ => rfl
  | [], _ :: _, _, _, h => by simp at h
  | _ :: _, [], _, _, h => by simp at h
  | a :: l₁, b :: l₂, hb₁, hb₂, h => by
    simp only [List.map_cons, List.cons.injEq] at h
    have ha : a = b := digitChar_inj (hb₁ a (by simp)) (hb₂ b (by simp)) h.1
    have hl : l₁ = l₂ := map_digitChar_inj l₁ l₂
      (fun d hd => hb₁ d (by simp [hd])) (fun d hd => hb₂ d (by simp [hd])) h.2
    rw [ha, hl]

theorem natDecimal_inj {m n : Nat} (hm : 0 < m) (hn : 0 < n)
    (h : natDecimal m = natDecimal n) : m = n := by
  unfold natDecimal at h
  rw [if_neg (by omega), if_neg (by omega), decDigits_eq_digits,
    decDigits_eq_digits] at h
  have hdata := congrArg String.data h
  simp only [String.data] at hdata
  have hrev := map_digitChar_inj _ _
    (fun d hd => Nat.digits_lt_base (by norm_num) (List.mem_reverse.mp hd))
    (fun d hd => Nat.digits_lt_base (by norm_num) (List.mem_reverse.mp hd)) hdata
  have hdig : Nat.digits 10 m = Nat.digits 10 n := by
    have := congrArg List.reverse hrev
    simpa using this
  calc m = Nat.ofDigits 10 (Nat.digits 10 m) := (Nat.ofDigits_digits 10 m).symm
    _ = Nat.ofDigits 10 (Nat.digits 10 n) := by rw [hdig]
    _ = n := Nat.ofDigits_digits 10 n

theorem intDecimal_inj {m n : Int} (hm : 0 < m) (hn : 0 < n)
    (h : intDecimal m = intDecimal n) : m = n := by
  unfold intDecimal at h
  rw [if_neg (by omega), if_neg (by omega)] at h
  have := natDecimal_inj (m := m.natAbs) (n := n.natAbs) (by omega) (by omega) h
  omega

theorem string_append_left_cancel {p s₁ s₂ : String}
    (h : p ++ s₁ = p ++ s₂) : s₁ = s₂ := by
  have hdata := congrArg String.data h
  simp only [String.data_append] at hdata
  exact String.ext (List.append_cancel_left hdata)

/-! ## Token codec (app/core/security.py) -/

/-- Claim dictionary passed to `create_access_token` and carried by the signed
JWT.  The login endpoint builds `{"sub": user.email, "company_id": company_id}`
(auth.py:134-137); `create_access_token` adds the `"exp"` claim. -/
structure JwtPayload where
  sub : Option String
  company_id : Option Int
  exp : Nat
deriving DecidableEq

/-- `TokenData` (security.py:16-18): the decoded-token model.  Its only
declared field is `email`. -/
structure TokenData where
  email : Option String
deriving DecidableEq

/-- `create_access_token` (security.py:61-79): copies the claim dict and sets
`"exp"`; the signed token is modelled as its payload (the codec is sound, so
decoding a token the system just issued recovers the payload). -/
def create_access_token (data : JwtPayload) (expiresAt : Nat) : JwtPayload :=
  { data with exp := expiresAt }

/-- `decode_access_token` (security.py:82-99): reads only the `"sub"` claim of
the payload; returns `None` when it is absent, else `TokenData(email=email)`.
The `"company_id"` claim is never read and `TokenData` has no field for it. -/
def decode_access_token (tok : JwtPayload) : Option TokenData :=
  match tok.sub with
  | Option.none => Option.none
  | some e => some { email := some e }

/-- Outcome of one request-handler (or dependency) invocation:
a value, a raised `HTTPException(status, detail)`, or an uncaught Python
exception propagating to the framework. -/
inductive Outcome (α : Type) where
  | ok (a : α)
  | httpError (status : Nat) (detail : String)
  | exn (msg : String)
deriving DecidableEq

/-- `get_company_id_from_token` (app/api/deps.py:29-52): decodes the token;
`None` becomes the 401 credentials error; otherwise the code evaluates
`token_data.company_id` — but the `TokenData` class it received
(security.py:16-18) declares no `company_id` attribute, so Python raises
`AttributeError`, modelled as an uncaught exception. -/
def get_company_id_from_token (tok : JwtPayload) : Outcome Int :=
  match decode_access_token tok with
  | Option.none => .httpError 401 "Could not validate credentials"
  | some _ => .exn "AttributeError: TokenData object has no attribute company_id"

/-! ## Credential verifier (external collaborator) -/

/-- Modelled from the spec: the Credential Verifier collaborator (§6) consumed
by security.py — `hash(password) -> opaque` with the bcrypt 72-byte input
ceiling applied deterministically (security.py:26-58 truncates
`password.encode('utf-8')[:72]` on both the hash and the verify side).
The opaque hash is modelled as an injective tagging of the truncated input. -/
def get_password_hash (password : String) : String :=
  "bcrypt$" ++ String.mk (password.data.take 72)

/-- Modelled from the spec: `verify(password, opaque) -> bool` of the
Credential Verifier (§6), stable under the same truncation. -/
def verify_password (plain hashed : String) : Bool :=
  hashed == "bcrypt$" ++ String.mk (plain.data.take 72)

/-! ## Data model and database state -/

inductive UserRole where
  | admin
  | user
deriving DecidableEq

/-- Tenant-local `users` row (app/models/user.py). -/
structure User where
  id : Int
  name : String
  email : String
  phone : Option String
  password_hash : String
  role : UserRole
  is_active : Bool
deriving DecidableEq

/-- Modelled from the spec: the `Company` model (`app/models/company.py` is
imported by `app/models/__init__.py` but absent from the source tree).
Spec §3 "Tenant": numeric identifier (primary key in the global registry) and
display name; timestamps are omitted as no claim mentions them. -/
structure Company where
  id : Int
  name : String
deriving DecidableEq

/-- `user_company_lookup` row (app/models/user_company_lookup.py): `email` is
the primary key, `company_id` a foreign key with `ondelete="CASCADE"`. -/
structure LookupEntry where
  email : String
  company_id : Int
deriving DecidableEq

/-- Contents of one physical tenant schema: whether the tenant-table template
has been materialized, the `users` rows, the id sequence, and whether the
reference data has been seeded. -/
structure TenantSchema where
  tablesCreated : Bool
  users : List User
  nextUserId : Int
  seeded : Bool
deriving DecidableEq

/-- The database: the global (public) schema — tenant registry, identity
lookup table, company-id sequence — plus the physical tenant schemas keyed by
schema name. -/
structure DBState where
  companies : List Company
  nextCompanyId : Int
  lookup : List LookupEntry
  schemas : List (String × TenantSchema)
deriving DecidableEq

def DBState.findSchema (s : DBState) (name : String) : Option TenantSchema :=
  (s.schemas.find? (fun p => p.1 == name)).map (fun p => p.2)

/-- Replace (or, when absent, append) the contents of a physical schema. -/
def DBState.putSchema (s : DBState) (name : String) (sch : TenantSchema) : DBState :=
  if (s.findSchema name).isSome then
    { s with schemas := s.schemas.map (fun p => if p.1 == name then (name, sch) else p) }
  else
    { s with schemas := s.schemas ++ [(name, sch)] }

/-! ## Session router and existence guard -/

/-- `schema_exists` (app/db/database.py:56-72): derives the schema name via
`get_schema_name` (whose `ValueError` propagates) and queries the physical
schema catalog for it. -/
def schema_exists (s : DBState) (company_id : Int) : Except String Bool :=
  (get_schema_name (.int company_id)).map (fun name => (s.findSchema name).isSome)

/-- `get_tenant_session` (app/db/database.py:120-137): derives the schema name
and yields a session whose search path is pinned to it.  No existence check is
performed.  A session is modelled as the schema name it is pinned to. -/
def get_tenant_session (company_id : Int) : Except String String :=
  get_schema_name (.int company_id)

/-- `get_session` (app/db/database.py:104-117): a session pinned to the public
schema. -/
def get_session : String := "public"

/-- `get_tenant_db` (app/api/deps.py:55-78): validates that the tenant schema
exists — raising `HTTPException(404, "Company schema not found")` when it does
not — and only then yields the tenant session. -/
def get_tenant_db (s : DBState) (company_id : Int) : Outcome String :=
  match schema_exists s company_id with
  | .error e => .exn e
  | .ok false => .httpError 404 "Company schema not found"
  | .ok true =>
    match get_tenant_session company_id with
    | .error e => .exn e
    | .ok sess => .ok sess

/-! ## Global lookup CRUD (app/crud/crud_user_company_lookup.py) -/

/-- `CRUDUserCompanyLookup.get_by_email` (crud_user_company_lookup.py:27-39). -/
def lookup_get_by_email (s : DBState) (email : String) : Option LookupEntry :=
  s.lookup.find? (fun e => e.email == email)

/-- `CRUDUserCompanyLookup.count_by_company` (crud_user_company_lookup.py:57-73). -/
def lookup_count_by_company (s : DBState) (company_id : Int) : Nat :=
  (s.lookup.filter (fun e => e.company_id == company_id)).length

/-- `CRUDUserCompanyLookup.delete_by_email` (crud_user_company_lookup.py:75-91):
deletes the entry when present and reports whether one was deleted. -/
def lookup_delete_by_email (s : DBState) (email : String) : Bool × DBState :=
  match lookup_get_by_email s email with
  | some _ => (true, { s with lookup := s.lookup.eraseP (fun e => e.email == email) })
  | Option.none => (false, s)

/-- `CRUDUserCompanyLookup.create_entry` (crud_user_company_lookup.py:93-112):
inserts and commits an email → company row.  The `fails` flag selects runs in
which this storage write raises. -/
def lookup_create_entry (s : DBState) (email : String) (company_id : Int)
    (fails : Bool) : Except String DBState :=
  if fails then .error "lookup insert failed"
  else .ok { s with lookup := s.lookup ++ [{ email := email, company_id := company_id }] }

/-! ## Tenant-local user CRUD (app/crud/crud_user.py)

Each operation runs on a tenant session, modelled by the schema name the
session's search path is pinned to.  Issuing a query against a schema that
does not exist (or whose tables were never materialized) raises a database
error, modelled as `Except.error`. -/

/-- `UserCreate` request schema (app/schemas/user.py). -/
structure UserCreate where
  name : String
  email : String
  password : String
  phone : Option String
  company_id : Option Int
  role : UserRole
deriving DecidableEq

/-- `CRUDUser.get_by_email` (crud_user.py:17-29), on the session's schema. -/
def tenant_get_user_by_email (s : DBState) (sess : String) (email : String) :
    Except String (Option User) :=
  match s.findSchema sess with
  | Option.none => .error ("schema " ++ sess ++ " does not exist")
  | some sch =>
    if sch.tablesCreated then .ok (sch.users.find? (fun u => u.email == email))
    else .error ("relation users does not exist in " ++ sess)

/-- `CRUDUser.create` (crud_user.py:31-52): builds the row with the hashed
password, adds and commits it; `is_active` takes its column default `True`
(app/models/user.py). -/
def crud_user_create (s : DBState) (sess : String) (obj_in : UserCreate) :
    Except String (User × DBState) :=
  match s.findSchema sess with
  | Option.none => .error ("schema " ++ sess ++ " does not exist")
  | some sch =>
    if sch.tablesCreated then
      let u : User :=
        { id := sch.nextUserId, name := obj_in.name, email := obj_in.email,
          phone := obj_in.phone,
          password_hash := get_password_hash obj_in.password,
          role := obj_in.role, is_active := true }
      .ok (u, s.putSchema sess
        { sch with users := sch.users ++ [u], nextUserId := sch.nextUserId + 1 })
    else .error ("relation users does not exist in " ++ sess)

/-- `CRUDUser.authenticate` (crud_user.py:54-73): fetch by email; `None` when
the row is absent, `None` when the password does not verify, else the user. -/
def crud_user_authenticate (s : DBState) (sess email password : String) :
    Except String (Option User) :=
  match tenant_get_user_by_email s sess email with
  | .error e => .error e
  | .ok Option.none => .ok Option.none
  | .ok (some u) =>
    if verify_password password u.password_hash then .ok (some u)
    else .ok Option.none

/-- Modelled from the spec: `CRUDBase.get` for users (`app/crud/base.py` is
imported by every CRUD module but absent from the source tree) — §4.5
"locate the tenant-local user": a primary-key lookup returning the row or
nothing. -/
def crud_user_get (s : DBState) (sess : String) (id : Int) :
    Except String (Option User) :=
  match s.findSchema sess with
  | Option.none => .error ("schema " ++ sess ++ " does not exist")
  | some sch =>
    if sch.tablesCreated then .ok (sch.users.find? (fun u => u.id == id))
    else .error ("relation users does not exist in " ++ sess)

/-- Modelled from the spec: `CRUDBase.delete` for users (`app/crud/base.py`
absent from the source tree) — §4.5 "Delete the tenant-local row": remove the
row with the given primary key and commit. -/
def crud_user_delete (s : DBState) (sess : String) (id : Int) :
    Except String DBState :=
  match s.findSchema sess with
  | Option.none => .error ("schema " ++ sess ++ " does not exist")
  | some sch =>
    if sch.tablesCreated then
      .ok (s.putSchema sess { sch with users := sch.users.eraseP (fun u => u.id == id) })
    else .error ("relation users does not exist in " ++ sess)

/-! ## Tenant schema provisioner (app/db/database.py:75-101) -/

/-- Fault selection for one provisioning run: which of the three steps
(`CREATE SCHEMA`, table materialization, reference-data seeding) raises. -/
structure ProvisionFaults where
  createSchemaFails : Bool
  createTablesFails : Bool
  seedFails : Bool
deriving DecidableEq

/-- `seed_tenant_reference_data` (app/seed/seed_reference_data.py): inserts
the fixed catalog of reference rows into the tenant schema, recorded here by
the `seeded` flag. -/
def seed_tenant_reference_data (sch : TenantSchema) : TenantSchema :=
  { sch with seeded := true }

/-- Step 1 of provisioning: `CREATE SCHEMA IF NOT EXISTS` — a new empty schema
when the name is absent, no change when it is already present. -/
def createSchemaIfNotExists (s : DBState) (name : String) : DBState :=
  if (s.findSchema name).isSome then s
  else s.putSchema name
    { tablesCreated := false, users := [], nextUserId := 1, seeded := false }

/-- Step 2 of provisioning: materialize the tenant-table template inside the
schema the session's search path points at. -/
def createTenantTables (s : DBState) (name : String) : DBState :=
  match s.findSchema name with
  | some sch => s.putSchema name { sch with tablesCreated := true }
  | Option.none => s

/-- Step 3 of provisioning: seed the reference catalog through a tenant
session. -/
def seedSchema (s : DBState) (name : String) : DBState :=
  match s.findSchema name with
  | some sch => s.putSchema name (seed_tenant_reference_data sch)
  | Option.none => s

/-- `create_company_schema` (app/db/database.py:75-101): (1) `CREATE SCHEMA IF
NOT EXISTS`; (2) materialize the tenant tables inside it; (3) when
`seed_data`, seed the reference catalog through a tenant session.  No step is
wrapped in a handler: a failure at any step propagates to the caller, leaving
the state the earlier steps produced. -/
def create_company_schema (s : DBState) (company_id : Int) (seed_data : Bool)
    (f : ProvisionFaults) : Except String Unit × DBState :=
  match get_schema_name (.int company_id) with
  | .error e => (.error e, s)
  | .ok name =>
    if f.createSchemaFails then (.error "create schema failed", s)
    else
      let s₁ := createSchemaIfNotExists s name
      if f.createTablesFails then (.error "create tables failed", s₁)
      else
        let s₂ := createTenantTables s₁ name
        if seed_data then
          if f.seedFails then (.error "seed reference data failed", s₂)
          else (.ok (), seedSchema s₂ name)
        else (.ok (), s₂)

/-! ## Company lifecycle manager (app/crud/crud_company.py) -/

/-- Deleting a company row also removes its lookup entries, by the
`ondelete="CASCADE"` foreign key on `user_company_lookup.company_id`. -/
def delete_company_record (s : DBState) (company_id : Int) : DBState :=
  { s with companies := s.companies.eraseP (fun c => c.id == company_id),
           lookup := s.lookup.filter (fun e => ¬ (e.company_id == company_id)) }

/-- Modelled from the spec: `CRUDBase.get` for companies (`app/crud/base.py`
absent from the source tree) — a primary-key lookup in the global tenant
registry. -/
def company_get (s : DBState) (id : Int) : Option Company :=
  s.companies.find? (fun c => c.id == id)

/-- `CRUDCompany.create` (crud_company.py:17-46): insert and commit the global
company record; then provision its schema, and on any provisioning exception
delete the record, commit, and raise
`HTTPException(500, "Failed to create company schema: ...")`. -/
def company_create (s : DBState) (f : ProvisionFaults) (name : String) :
    Outcome Company × DBState :=
  let c : Company := { id := s.nextCompanyId, name := name }
  let s₁ := { s with companies := s.companies ++ [c],
                     nextCompanyId := s.nextCompanyId + 1 }
  match create_company_schema s₁ c.id true f with
  | (.ok _, s₂) => (.ok c, s₂)
  | (.error e, s₂) =>
    (.httpError 500 ("Failed to create company schema: " ++ e),
     delete_company_record s₂ c.id)

/-- `CRUDCompany.delete` (crud_company.py:48-87): 404 when the record is
absent; 400 `Cannot delete company with N existing users` when any lookup
entry references it; otherwise `DROP SCHEMA IF EXISTS ... CASCADE` and delete
the record (cascading its lookup entries). -/
def company_delete (s : DBState) (id : Int) : Outcome Company × DBState :=
  match company_get s id with
  | Option.none => (.httpError 404 "Company not found", s)
  | some c =>
    let user_count := lookup_count_by_company s id
    if user_count > 0 then
      (.httpError 400 ("Cannot delete company with " ++ natDecimal user_count
        ++ " existing users"), s)
    else
      match get_schema_name (.int id) with
      | .error e => (.exn e, s)
      | .ok name =>
        let s₁ := { s with schemas := s.schemas.eraseP (fun p => p.1 == name) }
        (.ok c, delete_company_record s₁ id)

/-! ## Identity coordinator endpoints -/

/-- The `Token` response of the login endpoint. -/
structure Token where
  access_token : JwtPayload
  token_type : String
deriving DecidableEq

/-- `ACCESS_TOKEN_EXPIRE_MINUTES` (security.py:13). -/
def ACCESS_TOKEN_EXPIRE_MINUTES : Nat := 30

/-- `login` (app/api/v1/endpoints/auth.py:87-141): resolve the tenant id from
the email via the global lookup (401 `Incorrect email or password` when
absent); acquire a tenant session (no schema-existence check); authenticate
within that schema (401 with the same detail when `authenticate` returns
`None`, i.e. when the row is absent or the password does not verify); 400
`Inactive user` when the account is deactivated; else issue a token carrying
`sub` and `company_id`. -/
def login (s : DBState) (username password : String) : Outcome Token :=
  match lookup_get_by_email s username with
  | Option.none => .httpError 401 "Incorrect email or password"
  | some lk =>
    match get_tenant_session lk.company_id with
    | .error e => .exn e
    | .ok sess =>
      match crud_user_authenticate s sess username password with
      | .error e => .exn e
      | .ok Option.none => .httpError 401 "Incorrect email or password"
      | .ok (some u) =>
        if u.is_active then
          .ok { access_token := create_access_token
                  { sub := some u.email, company_id := some lk.company_id, exp := 0 }
                  ACCESS_TOKEN_EXPIRE_MINUTES,
                token_type := "bearer" }
        else .httpError 400 "Inactive user"

/-- `register` (app/api/v1/endpoints/auth.py:22-84): validate that
`company_id` is truthy (400 when `None` or `0`); 404 when no such company
record; 400 when the email is in the global lookup; acquire a tenant session
(no schema-existence check); 400 when the email already exists in the tenant
schema; create the tenant-local user; then create the lookup entry.  The
lookup write is NOT wrapped in a handler: when it raises, the exception
propagates uncaught and the just-created tenant-local row is left in place.
`lookupInsertFails` selects runs in which the lookup write raises. -/
def register (s : DBState) (lookupInsertFails : Bool) (user_in : UserCreate) :
    Outcome User × DBState :=
  match user_in.company_id with
  | Option.none => (.httpError 400 "company_id is required for registration", s)
  | some cid =>
    if cid == 0 then (.httpError 400 "company_id is required for registration", s)
    else if (company_get s cid).isNone then (.httpError 404 "Company not found", s)
    else if (lookup_get_by_email s user_in.email).isSome then
      (.httpError 400 "Email already registered", s)
    else
      match get_tenant_session cid with
      | .error e => (.exn e, s)
      | .ok sess =>
        match tenant_get_user_by_email s sess user_in.email with
        | .error e => (.exn e, s)
        | .ok (some _) => (.httpError 400 "Email already registered", s)
        | .ok Option.none =>
          match crud_user_create s sess user_in with
          | .error e => (.exn e, s)
          | .ok (u, s₁) =>
            match lookup_create_entry s₁ u.email cid lookupInsertFails with
            | .error e => (.exn e, s₁)
            | .ok s₂ => (.ok u, s₂)

/-- `create_user` (app/api/v1/endpoints/users.py:21-88), given its injected
dependencies: the tenant session `sess` (via `get_tenant_db`), the public
session, the token-derived `company_id`, and an authenticated active caller.
Checks the global lookup then the tenant schema for the email (400 `Email
already registered`); creates the tenant-local user; then creates the lookup
entry inside a handler: on failure it compensates by deleting the just-created
tenant row (a failure of that compensating delete is itself caught and logged
CRITICAL) and raises `HTTPException(500, "Failed to create user lookup entry:
...")`.  `lookupInsertFails` / `rollbackFails` select runs in which the lookup
write / the compensating delete raise. -/
def create_user (s : DBState) (sess : String) (company_id : Int)
    (lookupInsertFails rollbackFails : Bool) (user_in : UserCreate) :
    Outcome User × DBState :=
  if (lookup_get_by_email s user_in.email).isSome then
    (.httpError 400 "Email already registered", s)
  else
    match tenant_get_user_by_email s sess user_in.email with
    | .error e => (.exn e, s)
    | .ok (some _) => (.httpError 400 "Email already registered", s)
    | .ok Option.none =>
      match crud_user_create s sess user_in with
      | .error e => (.exn e, s)
      | .ok (u, s₁) =>
        match lookup_create_entry s₁ u.email company_id lookupInsertFails with
        | .ok s₂ => (.ok u, s₂)
        | .error e =>
          if rollbackFails then
            (.httpError 500 ("Failed to create user lookup entry: " ++ e), s₁)
          else
            match crud_user_delete s₁ sess u.id with
            | .error _ =>
              (.httpError 500 ("Failed to create user lookup entry: " ++ e), s₁)
            | .ok s₂ =>
              (.httpError 500 ("Failed to create user lookup entry: " ++ e), s₂)

/-- `delete_user` (app/api/v1/endpoints/users.py:175-213), given its injected
tenant session: 404 `User not found` when no row has the id; else delete the
tenant-local row, then `delete_by_email` on the public lookup; when that
reports nothing was deleted, a warning is logged (third component `true`) but
the operation still succeeds. -/
def delete_user (s : DBState) (sess : String) (user_id : Int) :
    Outcome Unit × DBState × Bool :=
  match crud_user_get s sess user_id with
  | .error e => (.exn e, s, false)
  | .ok Option.none => (.httpError 404 "User not found", s, false)
  | .ok (some u) =>
    match crud_user_delete s sess user_id with
    | .error e => (.exn e, s, false)
    | .ok s₁ =>
      match lookup_delete_by_email s₁ u.email with
      | (deleted, s₂) => (.ok (), s₂, !deleted)

/-! ## Concrete fixtures used by witnesses and counterexamples -/

/-- A provisioned, seeded, empty tenant schema. -/
def acmeSchema : TenantSchema :=
  { tablesCreated := true, users := [], nextUserId := 1, seeded := true }

/-- The tenant-local row `crud_user_create` produces for `adaCreate`. -/
def adaUser : User :=
  { id := 1, name := "Ada", email := "ada@acme.com", phone := Option.none,
    password_hash := get_password_hash "pw123", role := .user, is_active := true }

/-- One company `Acme` (id 1) with a provisioned empty schema and no users. -/
def stAcme : DBState :=
  { companies := [{ id := 1, name := "Acme" }], nextCompanyId := 2,
    lookup := [], schemas := [("company_1", acmeSchema)] }

/-- `stAcme` after Ada registered: tenant row plus matching lookup row. -/
def stAcmeWithAda : DBState :=
  { companies := [{ id := 1, name := "Acme" }], nextCompanyId := 2,
    lookup := [{ email := "ada@acme.com", company_id := 1 }],
    schemas := [("company_1",
      { acmeSchema with users := [adaUser], nextUserId := 2 })] }

/-- Registration payload for Ada at company 1. -/
def adaCreate : UserCreate :=
  { name := "Ada", email := "ada@acme.com", password := "pw123",
    phone := Option.none, company_id := some 1, role := .user }

/-- A company whose lookup row survived while its schema is gone: the state
the open-questions section of the design calls an accepted gap. -/
def stGhost : DBState :=
  { companies := [{ id := 2, name := "Ghost" }], nextCompanyId := 3,
    lookup := [{ email := "ghost@ghost.com", company_id := 2 }], schemas := [] }

def noFaults : ProvisionFaults := ⟨false, false, false⟩

def seedFault : ProvisionFaults := ⟨false, false, true⟩

/-! ## Helper lemmas about the state operations -/

theorem putSchema_lookup (s : DBState) (name : String) (sch : TenantSchema) :
    (s.putSchema name sch).lookup = s.lookup := by
  unfold DBState.putSchema
  split <;> rfl

theorem putSchema_companies (s : DBState) (name : String) (sch : TenantSchema) :
    (s.putSchema name sch).companies = s.companies := by
  unfold DBState.putSchema
  split <;> rfl

theorem find?_map_replace (name : String) (sch : TenantSchema) :
    ∀ l : List (String × TenantSchema),
      ((l.find? (fun p => p.1 == name)).isSome) →
      (l.map (fun p => if p.1 == name then (name, sch) else p)).find?
        (fun p => p.1 == name) = some (name, sch)
  | [], h => by simp [List.find?] at h
  | p :: l, h => by
    by_cases hp : p.1 == name
    · simp [List.find?, hp]
    · have hl : ((l.find? (fun q => q.1 == name)).isSome) := by
        simpa [List.find?, hp] using h
      simpa [List.find?, hp] using find?_map_replace name sch l hl

theorem find?_append_none {α : Type} (p : α → Bool) :
    ∀ l₁ l₂ : List α, l₁.find? p = none → (l₁ ++ l₂).find? p = l₂.find? p
  | [], _, _ => rfl
  | a :: l₁, l₂, h => by
    by_cases hp : p a
    · simp [List.find?, hp] at h
    · have h₁ : l₁.find? p = none := by simpa [List.find?, hp] using h
      simpa [List.find?, hp] using find?_append_none p l₁ l₂ h₁

theorem findSchema_putSchema_self (s : DBState) (name : String)
    (sch : TenantSchema) : (s.putSchema name sch).findSchema name = some sch := by
  unfold DBState.putSchema
  split
  case isTrue h =>
    have h' : ((s.schemas.find? (fun p => p.1 == name)).isSome) := by
      unfold DBState.findSchema at h
      cases hf : s.schemas.find? (fun p => p.1 == name) <;> simp [hf] at h ⊢
    unfold DBState.findSchema
    simp only
    rw [find?_map_replace name sch s.schemas h']
    rfl
  case isFalse h =>
    have h' : s.schemas.find? (fun p => p.1 == name) = none := by
      unfold DBState.findSchema at h
      cases hf : s.schemas.find? (fun p => p.1 == name) <;> simp [hf] at h ⊢
    unfold DBState.findSchema
    simp only
    rw [find?_append_none _ _ _ h']
    simp [List.find?]

/-- After erasing the (at most one) element satisfying `p`, no element
satisfies `p` any more. -/
theorem eraseP_no_more {α : Type} (p : α → Bool) :
    ∀ l : List α, (l.filter p).length ≤ 1 → ∀ x ∈ l.eraseP p, ¬ p x
  | [], _, x, hx => by simp at hx
  | a :: l, h, x, hx => by
    cases hp : p a
    · simp only [List.eraseP_cons, hp, cond_false] at hx
      rcases List.mem_cons.mp hx with rfl | hx'
      · simp [hp]
      · have h' : (l.filter p).length ≤ 1 := by
          rw [List.filter_cons, if_neg (by simp [hp])] at h
          exact h
        exact eraseP_no_more p l h' x hx'
    · simp only [List.eraseP_cons, hp, cond_true] at hx
      have hnil : l.filter p = [] := by
        rw [List.filter_cons, if_pos hp] at h
        simp only [List.length_cons] at h
        exact List.length_eq_zero.mp (by omega)
      exact List.filter_eq_nil_iff.mp hnil x hx

theorem createSchemaIfNotExists_companies (s : DBState) (name : String) :
    (createSchemaIfNotExists s name).companies = s.companies := by
  unfold createSchemaIfNotExists
  split <;> simp [putSchema_companies]

theorem createSchemaIfNotExists_lookup (s : DBState) (name : String) :
    (createSchemaIfNotExists s name).lookup = s.lookup := by
  unfold createSchemaIfNotExists
  split <;> simp [putSchema_lookup]

theorem createTenantTables_companies (s : DBState) (name : String) :
    (createTenantTables s name).companies = s.companies := by
  unfold createTenantTables
  cases s.findSchema name <;> simp [putSchema_companies]

theorem createTenantTables_lookup (s : DBState) (name : String) :
    (createTenantTables s name).lookup = s.lookup := by
  unfold createTenantTables
  cases s.findSchema name <;> simp [putSchema_lookup]

theorem seedSchema_companies (s : DBState) (name : String) :
    (seedSchema s name).companies = s.companies := by
  unfold seedSchema
  cases s.findSchema name <;> simp [putSchema_companies]

theorem seedSchema_lookup (s : DBState) (name : String) :
    (seedSchema s name).lookup = s.lookup := by
  unfold seedSchema
  cases s.findSchema name <;> simp [putSchema_lookup]

theorem create_company_schema_companies (s : DBState) (cid : Int)
    (sd : Bool) (f : ProvisionFaults) :
    ((create_company_schema s cid sd f).2).companies = s.companies := by
  unfold create_company_schema
  split
  · rfl
  · split
    · rfl
    · split
      · simp [createSchemaIfNotExists_companies]
      · split
        · split
          · simp [createTenantTables_companies, createSchemaIfNotExists_companies]
          · simp [seedSchema_companies, createTenantTables_companies,
              createSchemaIfNotExists_companies]
        · simp [createTenantTables_companies, createSchemaIfNotExists_companies]

theorem create_company_schema_lookup (s : DBState) (cid : Int)
    (sd : Bool) (f : ProvisionFaults) :
    ((create_company_schema s cid sd f).2).lookup = s.lookup := by
  unfold create_company_schema
  split
  · rfl
  · split
    · rfl
    · split
      · simp [createSchemaIfNotExists_lookup]
      · split
        · split
          · simp [createTenantTables_lookup, createSchemaIfNotExists_lookup]
          · simp [seedSchema_lookup, createTenantTables_lookup,
              createSchemaIfNotExists_lookup]
        · simp [createTenantTables_lookup, createSchemaIfNotExists_lookup]

theorem get_schema_name_pos (n : Int) (h : 0 < n) :
    get_schema_name (.int n) = .ok ("company_" ++ intDecimal n) := by
  have h2 : ¬ (n ≤ 0) := by omega
  simp [get_schema_name, pyIsInt, pyIntValue, pyFStr, h2]

/-! ## Claim theorems -/

/-- C10: the tenant-identifier validation in `get_schema_name` accepts the
boolean value `True` — `isinstance(True, int)` holds because `bool` is a
subclass of `int`, and `True > 0` — so `schema_name(True)` does not raise and
returns the string `"company_True"` rather than rejecting the
non-integer-typed input. -/
theorem C10_bool_true_accepted :
    get_schema_name (.bool true) = .ok "company_True" := by decide

/-- C7 counterexample: the claim says every non-positive or non-integer input
fails with `InvalidTenantIdentifier`, but at the concrete non-integer-typed
input `True` the function does not fail — it returns `"company_True"`. -/
theorem C7_counterexample :
    get_schema_name (.bool true) ≠ .error "Invalid company_id: True"
    ∧ get_schema_name (.bool true) = .ok "company_True" := by
  exact ⟨by decide, by decide⟩

/-- C7 (amended): for every positive integer `n`, `schema_name(n)` returns the
deterministic name `"company_" + decimal(n)` (a fixed prefix and the integer,
no caller-supplied free text), distinct for distinct `n`; every non-positive
integer, every string, and `None` fail with the `InvalidTenantIdentifier`
error; booleans — an `int` subclass in Python — follow their numeric value:
`False` (= 0) fails as non-positive while `True` (= 1) is accepted and yields
`"company_True"`. -/
theorem C7_schema_namer (m n : Int) (s : String) (hm : 0 < m) (hn : 0 < n) :
    get_schema_name (.int m) = .ok ("company_" ++ intDecimal m)
    ∧ (m ≠ n → get_schema_name (.int m) ≠ get_schema_name (.int n))
    ∧ (∀ k : Int, k ≤ 0 →
        get_schema_name (.int k) = .error ("Invalid company_id: " ++ intDecimal k))
    ∧ get_schema_name (.str s) = .error ("Invalid company_id: " ++ s)
    ∧ get_schema_name .none = .error "Invalid company_id: None"
    ∧ get_schema_name (.bool false) = .error "Invalid company_id: False"
    ∧ get_schema_name (.bool true) = .ok "company_True" := by
  refine ⟨get_schema_name_pos m hm, ?_, ?_, ?_, by decide, by decide, by decide⟩
  · intro hne heq
    rw [get_schema_name_pos m hm, get_schema_name_pos n hn] at heq
    exact hne (intDecimal_inj hm hn
      (string_append_left_cancel (Except.ok.inj heq)))
  · intro k hk
    simp [get_schema_name, pyIsInt, pyIntValue, pyFStr, hk]
  · simp [get_schema_name, pyIsInt, pyFStr]

theorem C7_schema_namer_witness :
    get_schema_name (.int 2) = .ok ("company_" ++ intDecimal 2)
    ∧ get_schema_name (.int 2) ≠ get_schema_name (.int 3)
    ∧ get_schema_name (.int 0) = .error ("Invalid company_id: " ++ intDecimal 0) := by
  have h := C7_schema_namer 2 3 "x" (by decide) (by decide)
  exact ⟨h.1, h.2.1 (by decide), h.2.2.1 0 (by decide)⟩

/-- C3: the login endpoint embeds both `sub` (email) and `company_id` in the
token it issues, but `decode_access_token` reads back only the email —
`TokenData` has no `company_id` field, so the decode result is the same for
every tenant id and `get_company_id_from_token` fails on an attribute that
does not exist.  The round trip `decode(issue(email, tenant_id))` therefore
does not yield the tenant id back, contradicting the claim (and the code's
own docstring and its `test_protected_endpoint_with_token` test). -/
theorem C3_token_roundtrip_drops_company_id :
    decode_access_token (create_access_token
        { sub := some "ada@acme.com", company_id := some 1, exp := 0 }
        ACCESS_TOKEN_EXPIRE_MINUTES) = some { email := some "ada@acme.com" }
    ∧ (∀ cid cid' : Int,
        decode_access_token (create_access_token
          { sub := some "ada@acme.com", company_id := some cid, exp := 0 }
          ACCESS_TOKEN_EXPIRE_MINUTES)
        = decode_access_token (create_access_token
          { sub := some "ada@acme.com", company_id := some cid', exp := 0 }
          ACCESS_TOKEN_EXPIRE_MINUTES))
    ∧ get_company_id_from_token (create_access_token
        { sub := some "ada@acme.com", company_id := some 1, exp := 0 }
        ACCESS_TOKEN_EXPIRE_MINUTES)
      = .exn "AttributeError: TokenData object has no attribute company_id" := by
  exact ⟨by decide, fun _ _ => rfl, by decide⟩

/-- C2 counterexample: the claim says no session is ever handed out for an
unprovisioned tenant, but `get_tenant_session` performs no existence check:
for tenant 2 of `stGhost`, whose schema does not exist, it hands out a session
pinned to `company_2`, and the login operation acquires that session and
proceeds to query inside the non-existent namespace (failing with a database
error, not a tenant-not-found condition). -/
theorem C2_counterexample :
    schema_exists stGhost 2 = .ok false
    ∧ get_tenant_session 2 = .ok "company_2"
    ∧ login stGhost "ghost@ghost.com" "pw" = .exn "schema company_2 does not exist" := by
  exact ⟨by decide, by decide, by decide⟩

/-- C2 (amended): only the request dependency `get_tenant_db` guards session
hand-out — it checks the physical schema catalog first and fails with the 404
`Company schema not found` condition when the schema is absent, and yields a
session only when the schema exists; `get_tenant_session` itself performs no
check, and the login and registration endpoints acquire tenant sessions
through it directly, without any schema-existence check. -/
theorem C2_get_tenant_db_guard (s : DBState) (cid : Int) :
    (schema_exists s cid = .ok false →
      get_tenant_db s cid = .httpError 404 "Company schema not found")
    ∧ (∀ sess, get_tenant_db s cid = .ok sess → schema_exists s cid = .ok true) := by
  constructor
  · intro h
    unfold get_tenant_db
    rw [h]
  · intro sess h
    unfold get_tenant_db at h
    cases he : schema_exists s cid with
    | error e => rw [he] at h; exact absurd h (by simp)
    | ok b =>
      cases b
      · rw [he] at h; exact absurd h (by simp)
      · rfl

theorem C2_get_tenant_db_guard_witness :
    get_tenant_db stGhost 2 = .httpError 404 "Company schema not found"
    ∧ schema_exists stAcme 1 = .ok true :=
  ⟨(C2_get_tenant_db_guard stGhost 2).1 (by decide),
   (C2_get_tenant_db_guard stAcme 1).2 "company_1" (by decide)⟩

/-- C1 counterexample: in the registration endpoint the lookup write is not
wrapped in a handler, so when it fails after the tenant-user write, the
just-created tenant-local row is NOT deleted (Ada's row is still present) and
the caller receives the propagated exception, not the `LookupCreationFailed`
internal error — a partial success is left behind. -/
theorem C1_counterexample :
    (register stAcme true adaCreate).1 = .exn "lookup insert failed"
    ∧ ((register stAcme true adaCreate).2.findSchema "company_1").map
        (fun sch => sch.users) = some [adaUser]
    ∧ (register stAcme true adaCreate).2.lookup = [] := by
  exact ⟨by decide, by decide, by decide⟩

/-- C6: a login that fails because the email has no global lookup entry and a
login that fails because the password does not verify produce the same
generic `401 Incorrect email or password` response (same status, same
message), so the response does not reveal whether the email exists; the
distinct `400 Inactive user` failure can only arise after the password has
verified on an existing account. -/
theorem C6_login_no_leak (s : DBState) (email pwd sess : String)
    (lk : LookupEntry) (u : User) :
    (lookup_get_by_email s email = Option.none →
      login s email pwd = .httpError 401 "Incorrect email or password")
    ∧ (lookup_get_by_email s email = some lk →
       get_tenant_session lk.company_id = .ok sess →
       tenant_get_user_by_email s sess email = .ok (some u) →
       verify_password pwd u.password_hash = false →
       login s email pwd = .httpError 401 "Incorrect email or password")
    ∧ (login s email pwd = .httpError 400 "Inactive user" →
       ∃ lk' sess' u', lookup_get_by_email s email = some lk'
         ∧ get_tenant_session lk'.company_id = .ok sess'
         ∧ tenant_get_user_by_email s sess' email = .ok (some u')
         ∧ verify_password pwd u'.password_hash = true
         ∧ u'.is_active = false) := by
  refine ⟨?_, ?_, ?_⟩
  · intro h
    simp only [login, h]
  · intro hlk hsess hus hv
    simp only [login, crud_user_authenticate, hlk, hsess, hus, hv,
      Bool.false_eq_true, if_false]
  · intro h
    unfold login at h
    cases hlk : lookup_get_by_email s email with
    | none => simp only [hlk] at h; exact absurd h (by simp)
    | some lk' =>
      simp only [hlk] at h
      cases hsess : get_tenant_session lk'.company_id with
      | error e => simp only [hsess] at h; exact absurd h (by simp)
      | ok sess' =>
        simp only [hsess] at h
        unfold crud_user_authenticate at h
        cases hus : tenant_get_user_by_email s sess' email with
        | error e => simp only [hus] at h; exact absurd h (by simp)
        | ok uo =>
          simp only [hus] at h
          cases uo with
          | none => exact absurd h (by simp)
          | some u' =>
            cases hv : verify_password pwd u'.password_hash with
            | false => simp [hv] at h
            | true =>
              simp only [hv, if_true] at h
              cases hact : u'.is_active with
              | true => simp [hact] at h
              | false => exact ⟨lk', sess', u', rfl, hsess, hus, hv, hact⟩

theorem C6_login_no_leak_witness :
    login stAcme "ghost@nowhere.com" "pw123"
      = .httpError 401 "Incorrect email or password"
    ∧ login stAcmeWithAda "ada@acme.com" "wrongpw"
      = .httpError 401 "Incorrect email or password" :=
  ⟨(C6_login_no_leak stAcme "ghost@nowhere.com" "pw123" "company_1"
      { email := "", company_id := 1 } adaUser).1 (by decide),
   (C6_login_no_leak stAcmeWithAda "ada@acme.com" "wrongpw" "company_1"
      { email := "ada@acme.com", company_id := 1 } adaUser).2.1
     (by decide) (by decide) (by decide) (by decide)⟩

/-- C5: company deletion fails with 404 `Company not found` when the tenant
record is absent (state unchanged); fails with 400 `Cannot delete company with
N existing users` when at least one lookup entry references the tenant, the
whole state — schema included — left exactly unchanged; and with zero lookup
entries it returns the deleted record, drops the schema and deletes the global
record, after which the schema no longer exists. -/
theorem C5_company_delete (s : DBState) (id : Int) (c : Company)
    (hpos : 0 < id)
    (huniq : (s.schemas.filter
      (fun p => p.1 == ("company_" ++ intDecimal id))).length ≤ 1) :
    (company_get s id = Option.none →
      company_delete s id = (.httpError 404 "Company not found", s))
    ∧ (company_get s id = some c → 0 < lookup_count_by_company s id →
        company_delete s id = (.httpError 400 ("Cannot delete company with "
          ++ natDecimal (lookup_count_by_company s id) ++ " existing users"), s))
    ∧ (company_get s id = some c → lookup_count_by_company s id = 0 →
        (s.companies.filter (fun c' => c'.id == id)).length ≤ 1 →
        (company_delete s id).1 = .ok c
        ∧ company_get (company_delete s id).2 id = Option.none
        ∧ schema_exists (company_delete s id).2 id = .ok false) := by
  refine ⟨?_, ?_, ?_⟩
  · intro h
    simp only [company_delete, h]
  · intro hget hcount
    simp only [company_delete, hget, if_pos hcount]
  · intro hget hcount hcomp
    simp only [company_delete, hget, hcount, lt_irrefl, if_false,
      get_schema_name_pos id hpos]
    refine ⟨trivial, ?_, ?_⟩
    · show (List.find? (fun c' => c'.id == id)
        (List.eraseP (fun c' => c'.id == id) s.companies)) = Option.none
      exact List.find?_eq_none.mpr (eraseP_no_more _ _ hcomp)
    · unfold schema_exists
      rw [get_schema_name_pos id hpos]
      simp only [Except.map]
      have hfind : ∀ s' : DBState,
          s'.schemas = List.eraseP (fun p => p.1 == ("company_" ++ intDecimal id))
            s.schemas →
          s'.findSchema ("company_" ++ intDecimal id) = Option.none := by
        intro s' hs'
        unfold DBState.findSchema
        rw [hs', List.find?_eq_none.mpr (eraseP_no_more _ _ huniq)]
        rfl
      rw [hfind _ rfl]
      rfl

theorem C5_company_delete_witness :
    company_delete stAcme 7 = (.httpError 404 "Company not found", stAcme)
    ∧ company_delete stAcmeWithAda 1 = (.httpError 400 ("Cannot delete company with "
        ++ natDecimal (lookup_count_by_company stAcmeWithAda 1) ++ " existing users"),
        stAcmeWithAda)
    ∧ (company_delete stAcme 1).1 = .ok { id := 1, name := "Acme" }
    ∧ company_get (company_delete stAcme 1).2 1 = Option.none
    ∧ schema_exists (company_delete stAcme 1).2 1 = .ok false := by
  refine ⟨(C5_company_delete stAcme 7 { id := 7, name := "x" } (by decide)
      (by decide)).1 (by decide),
    (C5_company_delete stAcmeWithAda 1 { id := 1, name := "Acme" } (by decide)
      (by decide)).2.1 (by decide) (by decide),
    ?_, ?_, ?_⟩
  · exact ((C5_company_delete stAcme 1 { id := 1, name := "Acme" } (by decide)
      (by decide)).2.2 (by decide) (by decide) (by decide)).1
  · exact ((C5_company_delete stAcme 1 { id := 1, name := "Acme" } (by decide)
      (by decide)).2.2 (by decide) (by decide) (by decide)).2.1
  · exact ((C5_company_delete stAcme 1 { id := 1, name := "Acme" } (by decide)
      (by decide)).2.2 (by decide) (by decide) (by decide)).2.2

theorem findSchema_createSchemaIfNotExists_isSome (s : DBState) (name : String) :
    ((createSchemaIfNotExists s name).findSchema name).isSome := by
  unfold createSchemaIfNotExists
  split
  case isTrue h => exact h
  case isFalse h => rw [findSchema_putSchema_self]; rfl

theorem findSchema_createTenantTables_isSome (s : DBState) (name : String)
    (h : (s.findSchema name).isSome) :
    ((createTenantTables s name).findSchema name).isSome := by
  unfold createTenantTables
  cases hf : s.findSchema name with
  | none => rw [hf] at h; exact absurd h (by simp)
  | some sch => rw [findSchema_putSchema_self]; rfl

theorem findSchema_seedSchema_isSome (s : DBState) (name : String)
    (h : (s.findSchema name).isSome) :
    ((seedSchema s name).findSchema name).isSome := by
  unfold seedSchema
  cases hf : s.findSchema name with
  | none => rw [hf] at h; exact absurd h (by simp)
  | some sch => rw [findSchema_putSchema_self]; rfl

theorem findSchema_provision_isSome (s : DBState) (name : String) :
    ((seedSchema (createTenantTables (createSchemaIfNotExists s name) name)
        name).findSchema name).isSome :=
  findSchema_seedSchema_isSome _ _
    (findSchema_createTenantTables_isSome _ _
      (findSchema_createSchemaIfNotExists_isSome s name))

theorem company_get_delete_new (s₂ : DBState) (nid : Int) (rest : List Company)
    (nm : String) (hco : s₂.companies = rest ++ [{ id := nid, name := nm }])
    (hfresh : ∀ c ∈ rest, ¬ (c.id == nid)) :
    company_get (delete_company_record s₂ nid) nid = Option.none := by
  unfold company_get delete_company_record
  simp only
  rw [hco, List.eraseP_append_right _ hfresh]
  simp [List.eraseP_cons, List.find?_eq_none.mpr hfresh]

theorem company_get_append_new (s₂ : DBState) (nid : Int) (rest : List Company)
    (nm : String) (hco : s₂.companies = rest ++ [{ id := nid, name := nm }])
    (hfresh : ∀ c ∈ rest, ¬ (c.id == nid)) :
    company_get s₂ nid = some { id := nid, name := nm } := by
  unfold company_get
  rw [hco, find?_append_none _ _ _ (List.find?_eq_none.mpr hfresh)]
  simp [List.find?]

/-- C4: company creation returns the created tenant record only when both the
global-record insert and the schema provisioning (all three steps) succeed; if
any provisioning step fails, the freshly inserted global tenant record is
deleted before the 500 `Failed to create company schema` error is raised, so
no tenant record is left referencing a missing or partial schema; on full
success the record exists and its schema exists. -/
theorem C4_company_create_saga (s : DBState) (f : ProvisionFaults) (name : String)
    (hpos : 0 < s.nextCompanyId)
    (hfresh : ∀ c ∈ s.companies, ¬ (c.id == s.nextCompanyId)) :
    ((f.createSchemaFails = true ∨ f.createTablesFails = true ∨ f.seedFails = true) →
      (∃ msg, (company_create s f name).1
          = .httpError 500 ("Failed to create company schema: " ++ msg))
      ∧ company_get (company_create s f name).2 s.nextCompanyId = Option.none)
    ∧ (f.createSchemaFails = false → f.createTablesFails = false →
       f.seedFails = false →
        (company_create s f name).1 = .ok { id := s.nextCompanyId, name := name }
        ∧ company_get (company_create s f name).2 s.nextCompanyId
            = some { id := s.nextCompanyId, name := name }
        ∧ schema_exists (company_create s f name).2 s.nextCompanyId = .ok true) := by
  obtain ⟨f1, f2, f3⟩ := f
  cases f1 <;> cases f2 <;> cases f3
  -- first goal: the no-fault run, where provisioning succeeds
  · refine ⟨fun hfault => by rcases hfault with h | h | h <;> simp at h,
      fun _ _ _ => ?_⟩
    simp only [company_create, create_company_schema,
      get_schema_name_pos _ hpos, Bool.false_eq_true, if_false, if_true]
    refine ⟨trivial, ?_, ?_⟩
    · refine company_get_append_new _ _ s.companies name ?_ hfresh
      simp [seedSchema_companies, createTenantTables_companies,
        createSchemaIfNotExists_companies]
    · simp only [schema_exists, get_schema_name_pos _ hpos, Except.map,
        findSchema_provision_isSome]
  -- the seven faulted runs
  all_goals refine ⟨fun _ => ?_, fun h1 h2 h3 => by simp_all⟩
  all_goals
    simp only [company_create, create_company_schema,
      get_schema_name_pos _ hpos, Bool.false_eq_true, if_false, if_true]
  all_goals refine ⟨⟨_, rfl⟩, ?_⟩
  all_goals refine company_get_delete_new _ _ s.companies name ?_ hfresh
  all_goals
    simp [seedSchema_companies, createTenantTables_companies,
      createSchemaIfNotExists_companies]

theorem C4_company_create_saga_witness :
    (∃ msg, (company_create stAcme seedFault "Beta").1
        = .httpError 500 ("Failed to create company schema: " ++ msg))
    ∧ company_get (company_create stAcme seedFault "Beta").2 2 = Option.none
    ∧ (company_create stAcme noFaults "Beta").1 = .ok { id := 2, name := "Beta" }
    ∧ schema_exists (company_create stAcme noFaults "Beta").2 2 = .ok true := by
  have hf := (C4_company_create_saga stAcme seedFault "Beta" (by decide)
    (by decide)).1 (Or.inr (Or.inr rfl))
  have hs := (C4_company_create_saga stAcme noFaults "Beta" (by decide)
    (by decide)).2 rfl rfl rfl
  exact ⟨hf.1, hf.2, hs.1, hs.2.2⟩

/-- C8 counterexample: the claim says a seeding failure is not fatal at the
provisioning call boundary, but `create_company_schema` wraps no handler
around the seeding step: on the concrete run where seeding fails for tenant 2,
the provisioning call itself returns the error (it is fatal at that boundary),
while the schema and its tables are indeed left in place unseeded. -/
theorem C8_counterexample :
    (create_company_schema stAcme 2 true seedFault).1
      = .error "seed reference data failed"
    ∧ ((create_company_schema stAcme 2 true seedFault).2.findSchema
        "company_2").map (fun sch => (sch.tablesCreated, sch.seeded))
      = some (true, false) := by
  exact ⟨by decide, by decide⟩

/-- C8 (amended): a failure in the reference-data seeding step leaves the
already-created schema and tables in place (unseeded), but it IS fatal at the
provisioning call boundary: `create_company_schema` propagates the seeding
error to every caller — the company-creation path then compensates by
deleting the tenant record, and the bootstrap path reports the error and
aborts. -/
theorem C8_seeding_failure (s : DBState) (cid : Int) (hpos : 0 < cid)
    (habs : s.findSchema ("company_" ++ intDecimal cid) = Option.none) :
    (create_company_schema s cid true seedFault).1
      = .error "seed reference data failed"
    ∧ ∃ sch, (create_company_schema s cid true seedFault).2.findSchema
        ("company_" ++ intDecimal cid) = some sch
      ∧ sch.tablesCreated = true ∧ sch.seeded = false := by
  have h1 : createSchemaIfNotExists s ("company_" ++ intDecimal cid)
      = s.putSchema ("company_" ++ intDecimal cid)
        { tablesCreated := false, users := [], nextUserId := 1, seeded := false } := by
    unfold createSchemaIfNotExists
    rw [habs]
    rfl
  constructor
  · simp only [create_company_schema, get_schema_name_pos _ hpos, seedFault,
      Bool.false_eq_true, if_false, if_true]
  · simp only [create_company_schema, get_schema_name_pos _ hpos, seedFault,
      Bool.false_eq_true, if_false, if_true, createTenantTables, h1,
      findSchema_putSchema_self]
    exact ⟨_, rfl, rfl, rfl⟩

theorem C8_seeding_failure_witness :
    (create_company_schema stAcme 2 true seedFault).1
      = .error "seed reference data failed"
    ∧ ∃ sch, (create_company_schema stAcme 2 true seedFault).2.findSchema
        ("company_" ++ intDecimal 2) = some sch
      ∧ sch.tablesCreated = true ∧ sch.seeded = false :=
  C8_seeding_failure stAcme 2 (by decide) (by decide)

/-- C1 (amended): the authenticated user-creation endpoint does implement the
claimed compensation — when the lookup write fails after the tenant-user
write (and the compensating delete succeeds), the just-created tenant-local
row is removed, the global lookup table is untouched, and the caller receives
the 500 `Failed to create user lookup entry` internal error, never a partial
success; the registration endpoint, however, propagates the failure without
compensation. -/
theorem C1_create_user_compensation (s : DBState) (sess : String) (cid : Int)
    (u : UserCreate) (sch : TenantSchema)
    (hsch : s.findSchema sess = some sch)
    (htab : sch.tablesCreated = true)
    (hlook : lookup_get_by_email s u.email = Option.none)
    (hmail : ∀ v ∈ sch.users, ¬ (v.email == u.email))
    (hfresh : ∀ v ∈ sch.users, ¬ (v.id == sch.nextUserId)) :
    (create_user s sess cid true false u).1
      = .httpError 500 "Failed to create user lookup entry: lookup insert failed"
    ∧ ((create_user s sess cid true false u).2.findSchema sess).map
        (fun sch' => sch'.users) = some sch.users
    ∧ (create_user s sess cid true false u).2.lookup = s.lookup := by
  have hemail : tenant_get_user_by_email s sess u.email = .ok Option.none := by
    simp [tenant_get_user_by_email, hsch, htab, List.find?_eq_none.mpr hmail]
  have herase : ∀ w : User, w.id = sch.nextUserId →
      List.eraseP (fun v => v.id == sch.nextUserId) (sch.users ++ [w])
        = sch.users := by
    intro w hw
    rw [List.eraseP_append_right _ hfresh]
    simp [List.eraseP_cons, hw]
  refine ⟨?_, ?_, ?_⟩ <;>
    simp [create_user, hlook, hemail, crud_user_create, hsch, htab,
      lookup_create_entry, crud_user_delete, findSchema_putSchema_self,
      herase, putSchema_lookup]

theorem C1_create_user_compensation_witness :
    (create_user stAcme "company_1" 1 true false adaCreate).1
      = .httpError 500 "Failed to create user lookup entry: lookup insert failed"
    ∧ ((create_user stAcme "company_1" 1 true false adaCreate).2.findSchema
        "company_1").map (fun sch' => sch'.users) = some acmeSchema.users
    ∧ (create_user stAcme "company_1" 1 true false adaCreate).2.lookup
        = stAcme.lookup :=
  C1_create_user_compensation stAcme "company_1" 1 adaCreate acmeSchema
    (by decide) (by decide) (by decide) (by decide) (by decide)

theorem lookup_get_putSchema (s : DBState) (nm : String) (sch : TenantSchema)
    (e : String) :
    lookup_get_by_email (s.putSchema nm sch) e = lookup_get_by_email s e := by
  simp [lookup_get_by_email, putSchema_lookup]

/-- C9: user deletion on an existing user removes the tenant-local row and
then the matching global lookup row, so afterward neither row exists; when the
lookup row is already absent, a warning is recorded (third component `true`)
but the deletion still succeeds; deletion of a non-existent user fails with
404 `User not found` and changes nothing. -/
theorem C9_delete_user (s : DBState) (sess : String) (uid : Int)
    (sch : TenantSchema)
    (hsch : s.findSchema sess = some sch)
    (htab : sch.tablesCreated = true) :
    ((∀ v ∈ sch.users, ¬ (v.id == uid)) →
      delete_user s sess uid = (.httpError 404 "User not found", s, false))
    ∧ (∀ u, sch.users.find? (fun v => v.id == uid) = some u →
       (sch.users.filter (fun v => v.id == uid)).length ≤ 1 →
       (s.lookup.filter (fun e => e.email == u.email)).length ≤ 1 →
       (delete_user s sess uid).1 = .ok ()
       ∧ (∃ sch', (delete_user s sess uid).2.1.findSchema sess = some sch'
           ∧ sch'.users.find? (fun v => v.id == uid) = Option.none)
       ∧ lookup_get_by_email (delete_user s sess uid).2.1 u.email = Option.none
       ∧ (delete_user s sess uid).2.2
           = !(lookup_get_by_email s u.email).isSome) := by
  constructor
  · intro hnone
    have hget : crud_user_get s sess uid = .ok Option.none := by
      simp [crud_user_get, hsch, htab, List.find?_eq_none.mpr hnone]
    simp [delete_user, hget]
  · intro u hfind hfu hfe
    have hget : crud_user_get s sess uid = .ok (some u) := by
      simp [crud_user_get, hsch, htab, hfind]
    have hdel : crud_user_delete s sess uid = .ok (s.putSchema sess
        { sch with users := List.eraseP (fun v => v.id == uid) sch.users }) := by
      simp [crud_user_delete, hsch, htab]
    have husers : (List.eraseP (fun v => v.id == uid) sch.users).find?
        (fun v => v.id == uid) = Option.none :=
      List.find?_eq_none.mpr (eraseP_no_more _ _ hfu)
    cases hlk : lookup_get_by_email s u.email with
    | some entry =>
      have hlkf : List.find? (fun e => e.email == u.email) s.lookup
          = some entry := hlk
      have hrun : delete_user s sess uid = (.ok (),
          { s.putSchema sess
              { sch with users := List.eraseP (fun v => v.id == uid) sch.users }
            with lookup := List.eraseP (fun e => e.email == u.email) s.lookup },
          false) := by
        simp [delete_user, hget, hdel, lookup_delete_by_email,
          lookup_get_by_email, putSchema_lookup, hlkf]
      rw [hrun]
      exact ⟨rfl, ⟨_, findSchema_putSchema_self _ _ _, husers⟩,
        List.find?_eq_none.mpr (eraseP_no_more _ _ hfe), rfl⟩
    | none =>
      have hlkf : List.find? (fun e => e.email == u.email) s.lookup
          = Option.none := hlk
      have hrun : delete_user s sess uid = (.ok (),
          s.putSchema sess
            { sch with users := List.eraseP (fun v => v.id == uid) sch.users },
          true) := by
        simp [delete_user, hget, hdel, lookup_delete_by_email,
          lookup_get_by_email, putSchema_lookup, hlkf]
      rw [hrun]
      refine ⟨rfl, ⟨_, findSchema_putSchema_self _ _ _, husers⟩, ?_, rfl⟩
      show List.find? (fun e => e.email == u.email)
        (s.putSchema sess
          { sch with users := List.eraseP (fun v => v.id == uid) sch.users }).lookup
        = Option.none
      rw [putSchema_lookup]
      exact hlkf

theorem C9_delete_user_witness :
    delete_user stAcmeWithAda "company_1" 9
      = (.httpError 404 "User not found", stAcmeWithAda, false)
    ∧ (delete_user stAcmeWithAda "company_1" 1).1 = .ok ()
    ∧ lookup_get_by_email (delete_user stAcmeWithAda "company_1" 1).2.1
        "ada@acme.com" = Option.none
    ∧ (delete_user stAcmeWithAda "company_1" 1).2.2 = false := by
  have h := C9_delete_user stAcmeWithAda "company_1" 9
    { acmeSchema with users := [adaUser], nextUserId := 2 } (by decide) (by decide)
  have h2 := (C9_delete_user stAcmeWithAda "company_1" 1
    { acmeSchema with users := [adaUser], nextUserId := 2 } (by decide)
    (by decide)).2 adaUser (by decide) (by decide) (by decide)
  exact ⟨h.1 (by decide), h2.1, h2.2.2.1, by rw [h2.2.2.2]; decide⟩

end ResourceApi
